import Mathlib

/-!
Verification of the `lj/eten` pair style (`pair_lj_eten.cpp`), a 12-10-6
power-law pairwise potential kernel for a molecular dynamics engine.

Embedding conventions:
* machine doubles are modelled as exact rationals (`ℚ`);
* the two-dimensional per-type-pair arrays (`setflag`, `aterm`, `bterm`,
  `cterm`, `cut`, `lj1` … `lj6`, `offset`) are total functions
  `Nat → Nat → _` collected in a `Table` structure, and every in-place
  assignment of the C++ code becomes a pointwise functional update;
* where the source computes `sqrt(rsq)` the embedded kernel is
  parameterized by the distance `r` and uses `rsq = r * r`, so that
  `sqrt(rsq) = r` holds exactly;
* `error->all(...)` (a fatal abort) is modelled by `Except.error ()`.
-/

namespace PairLJETEN

/-- Pointwise update of a two-index table at entry `(i, j)`:
the functional counterpart of the assignment `f[i][j] = v`. -/
def upd2 {α : Type} (f : Nat → Nat → α) (i j : Nat) (v : α) : Nat → Nat → α :=
  fun a b => if a = i ∧ b = j then v else f a b

/-- The per-type-pair arrays owned by `PairLJETEN` (allocated in
`PairLJETEN::allocate`): the explicit-set flag, the three fundamental
coefficients `aterm, bterm, cterm`, the pair cutoff `cut`, the derived
force constants `lj1, lj2, lj3`, the derived energy constants
`lj4, lj5, lj6`, and the energy shift `offset`. -/
structure Table where
  setflag : Nat → Nat → Bool
  aterm : Nat → Nat → ℚ
  bterm : Nat → Nat → ℚ
  cterm : Nat → Nat → ℚ
  cut : Nat → Nat → ℚ
  lj1 : Nat → Nat → ℚ
  lj2 : Nat → Nat → ℚ
  lj3 : Nat → Nat → ℚ
  lj4 : Nat → Nat → ℚ
  lj5 : Nat → Nat → ℚ
  lj6 : Nat → Nat → ℚ
  offset : Nat → Nat → ℚ

/-- The four rRESPA shell radii `cut_respa[0..3]` supplied by the external
integrator (`Respa::cutoff`), referenced by `init_style` / the shell
kernels.  In spec terms: `[innerOff, innerOn, outerOn, outerOff]`. -/
structure RespaBounds where
  r0 : ℚ
  r1 : ℚ
  r2 : ℚ
  r3 : ℚ

/-- The table mutation performed by `PairLJETEN::init_one(i,j)`
(lines 509-545): zero-fill an unset pair and mix its cutoff, compute the
derived constants `lj1..lj6` and `offset` at `(i,j)`, then mirror the
derived constants into `(j,i)`.  The distance-mixing rule `mix` is the
base engine's `Pair::mix_distance`, which is outside this translation
unit, so it is kept as an explicit function parameter. -/
def init_one_table (mix : ℚ → ℚ → ℚ) (T : Table) (i j : Nat) : Table :=
  let T1 :=
    if T.setflag i j then T
    else
      { T with
        aterm := upd2 T.aterm i j 0
        bterm := upd2 T.bterm i j 0
        cterm := upd2 T.cterm i j 0
        cut := upd2 T.cut i j (mix (T.cut i i) (T.cut j j)) }
  let T2 :=
    { T1 with
      lj1 := upd2 T1.lj1 i j (12 * T1.aterm i j)
      lj2 := upd2 T1.lj2 i j (10 * T1.bterm i j)
      lj3 := upd2 T1.lj3 i j (6 * T1.cterm i j)
      lj4 := upd2 T1.lj4 i j (T1.aterm i j)
      lj5 := upd2 T1.lj5 i j (T1.bterm i j)
      lj6 := upd2 T1.lj6 i j (T1.cterm i j)
      offset := upd2 T1.offset i j 0 }
  { T2 with
    lj1 := upd2 T2.lj1 j i (T2.lj1 i j)
    lj2 := upd2 T2.lj2 j i (T2.lj2 i j)
    lj3 := upd2 T2.lj3 j i (T2.lj3 i j)
    lj4 := upd2 T2.lj4 j i (T2.lj4 i j)
    lj5 := upd2 T2.lj5 j i (T2.lj5 i j)
    lj6 := upd2 T2.lj6 j i (T2.lj6 i j)
    offset := upd2 T2.offset j i (T2.offset i j) }

/-- `PairLJETEN::init_one` including the interior-rRESPA-cutoff check
(lines 547-550): after the table writes, when `cut_respa` is non-null the
call aborts with `error->all` if `cut[i][j] < cut_respa[3]`; otherwise it
returns the finalized cutoff.  The untrusted, explicitly disabled
long-range tail-correction branch (`tail_flag`, lines 555-575) touches
only `etail_ij`/`ptail_ij`, never the table, and is out of scope. -/
def init_one (mix : ℚ → ℚ → ℚ) (respa : Option RespaBounds) (T : Table) (i j : Nat) :
    Except Unit (Table × ℚ) :=
  let T3 := init_one_table mix T i j
  match respa with
  | some rb => if T3.cut i j < rb.r3 then Except.error () else Except.ok (T3, T3.cut i j)
  | none => Except.ok (T3, T3.cut i j)

/-- The pairwise force magnitude `fforce` of `PairLJETEN::single`
(lines 689-692); the identical expression appears in the force loop of
`PairLJETEN::compute` (lines 117-120). -/
def single_fforce (T : Table) (itype jtype : Nat) (factor_lj rsq : ℚ) : ℚ :=
  let r2inv := 1 / rsq
  let r6inv := r2inv * r2inv * r2inv
  let forcelj := r6inv *
    (T.lj1 itype jtype * r6inv - T.lj2 itype jtype * r2inv * r2inv + T.lj3 itype jtype)
  factor_lj * forcelj * r2inv

/-- The pairwise energy of `PairLJETEN::single` (lines 694-695); the
identical expression computes `evdwl` in `PairLJETEN::compute`
(lines 131-133). -/
def single_energy (T : Table) (itype jtype : Nat) (factor_lj rsq : ℚ) : ℚ :=
  let r2inv := 1 / rsq
  let r6inv := r2inv * r2inv * r2inv
  let philj := r6inv *
      (T.lj4 itype jtype * r6inv - T.lj5 itype jtype * r2inv * r2inv + T.lj6 itype jtype) -
    T.offset itype jtype
  factor_lj * philj

/-- The spec's `evaluate(rsq, i, j, factor, needEnergy)`: the per-pair
contribution of the force loop of `PairLJETEN::compute` (lines 116-137).
A pair contributes only when `rsq < cutsq[itype][jtype]`; `cutsq` is
filled by the base engine (outside this translation unit) with the
square of the cutoff returned by `init_one`, so the guard is modelled as
`rsq < cut * cut`.  Energy is computed only when `eflag` is requested. -/
def evaluate (T : Table) (itype jtype : Nat) (factor_lj rsq : ℚ) (eflag : Bool) : ℚ × ℚ :=
  if rsq < T.cut itype jtype * T.cut itype jtype then
    (single_fforce T itype jtype factor_lj rsq,
      if eflag then single_energy T itype jtype factor_lj rsq else 0)
  else (0, 0)

lemma init_one_table_setflag (mix : ℚ → ℚ → ℚ) (T : Table) (i j a b : Nat) :
    (init_one_table mix T i j).setflag a b = T.setflag a b := by
  unfold init_one_table
  by_cases h : T.setflag i j <;> simp [h]

lemma init_one_table_aterm (mix : ℚ → ℚ → ℚ) (T : Table) (i j : Nat) :
    (init_one_table mix T i j).aterm i j = if T.setflag i j then T.aterm i j else 0 := by
  unfold init_one_table
  by_cases h : T.setflag i j <;> simp [h, upd2]

lemma init_one_table_bterm (mix : ℚ → ℚ → ℚ) (T : Table) (i j : Nat) :
    (init_one_table mix T i j).bterm i j = if T.setflag i j then T.bterm i j else 0 := by
  unfold init_one_table
  by_cases h : T.setflag i j <;> simp [h, upd2]

lemma init_one_table_cterm (mix : ℚ → ℚ → ℚ) (T : Table) (i j : Nat) :
    (init_one_table mix T i j).cterm i j = if T.setflag i j then T.cterm i j else 0 := by
  unfold init_one_table
  by_cases h : T.setflag i j <;> simp [h, upd2]

lemma init_one_table_cut (mix : ℚ → ℚ → ℚ) (T : Table) (i j : Nat) :
    (init_one_table mix T i j).cut i j =
      if T.setflag i j then T.cut i j else mix (T.cut i i) (T.cut j j) := by
  unfold init_one_table
  by_cases h : T.setflag i j <;> simp [h, upd2]

lemma init_one_table_lj1 (mix : ℚ → ℚ → ℚ) (T : Table) (i j : Nat) :
    (init_one_table mix T i j).lj1 i j =
      12 * (init_one_table mix T i j).aterm i j := by
  unfold init_one_table
  by_cases h : T.setflag i j <;> simp [h, upd2]

lemma init_one_table_lj2 (mix : ℚ → ℚ → ℚ) (T : Table) (i j : Nat) :
    (init_one_table mix T i j).lj2 i j =
      10 * (init_one_table mix T i j).bterm i j := by
  unfold init_one_table
  by_cases h : T.setflag i j <;> simp [h, upd2]

lemma init_one_table_lj3 (mix : ℚ → ℚ → ℚ) (T : Table) (i j : Nat) :
    (init_one_table mix T i j).lj3 i j =
      6 * (init_one_table mix T i j).cterm i j := by
  unfold init_one_table
  by_cases h : T.setflag i j <;> simp [h, upd2]

lemma init_one_table_lj4 (mix : ℚ → ℚ → ℚ) (T : Table) (i j : Nat) :
    (init_one_table mix T i j).lj4 i j = (init_one_table mix T i j).aterm i j := by
  unfold init_one_table
  by_cases h : T.setflag i j <;> simp [h, upd2]

lemma init_one_table_lj5 (mix : ℚ → ℚ → ℚ) (T : Table) (i j : Nat) :
    (init_one_table mix T i j).lj5 i j = (init_one_table mix T i j).bterm i j := by
  unfold init_one_table
  by_cases h : T.setflag i j <;> simp [h, upd2]

lemma init_one_table_lj6 (mix : ℚ → ℚ → ℚ) (T : Table) (i j : Nat) :
    (init_one_table mix T i j).lj6 i j = (init_one_table mix T i j).cterm i j := by
  unfold init_one_table
  by_cases h : T.setflag i j <;> simp [h, upd2]

lemma init_one_table_offset (mix : ℚ → ℚ → ℚ) (T : Table) (i j : Nat) :
    (init_one_table mix T i j).offset i j = 0 := by
  unfold init_one_table
  by_cases h : T.setflag i j <;> simp [h, upd2]

/-- Claim C1: for every finalized type pair with fundamental coefficients
`a, b, c` and every squared distance `rsq` with `0 < rsq < cutoff²`, the
evaluated pairwise force magnitude equals
`factor · r2inv · r6inv · (12a·r6inv − 10b·r2inv² + 6c)` where
`r2inv = 1/rsq` and `r6inv = r2inv³`. -/
theorem c1_force_formula (mix : ℚ → ℚ → ℚ) (T : Table) (i j : Nat)
    (factor rsq : ℚ) (eflag : Bool) (hpos : 0 < rsq)
    (hcut : rsq <
      (init_one_table mix T i j).cut i j * (init_one_table mix T i j).cut i j) :
    (evaluate (init_one_table mix T i j) i j factor rsq eflag).1 =
      factor * (1 / rsq) * ((1 / rsq) ^ 3) *
        (12 * (init_one_table mix T i j).aterm i j * ((1 / rsq) ^ 3) -
          10 * (init_one_table mix T i j).bterm i j * ((1 / rsq) ^ 2) +
          6 * (init_one_table mix T i j).cterm i j) := by
  unfold evaluate
  rw [if_pos hcut]
  unfold single_fforce
  rw [init_one_table_lj1, init_one_table_lj2, init_one_table_lj3]
  ring

/-- Witness for C1, instantiating the claim's concrete case: type pair
`(1,1)` with `a = 1000, b = 2000, c = 50, cutoff = 10`, bond-exclusion
factor `1`, at `rsq = 25`:
`forceMag = 0.04 · 6.4e-5 · (12000 · 6.4e-5 − 20000 · 0.0016 + 300)`. -/
def mix_arith (x y : ℚ) : ℚ := (x + y) / 2

/-- Example table: every pair explicitly set with `a = 1000, b = 2000,
c = 50, cutoff = 10` (derived fields not yet computed). -/
def tableC1 : Table where
  setflag := fun _ _ => true
  aterm := fun _ _ => 1000
  bterm := fun _ _ => 2000
  cterm := fun _ _ => 50
  cut := fun _ _ => 10
  lj1 := fun _ _ => 0
  lj2 := fun _ _ => 0
  lj3 := fun _ _ => 0
  lj4 := fun _ _ => 0
  lj5 := fun _ _ => 0
  lj6 := fun _ _ => 0
  offset := fun _ _ => 0

theorem c1_force_formula_witness :
    (0 : ℚ) < 25 ∧
      (25 : ℚ) <
        (init_one_table mix_arith tableC1 1 1).cut 1 1 *
          (init_one_table mix_arith tableC1 1 1).cut 1 1 ∧
      (evaluate (init_one_table mix_arith tableC1 1 1) 1 1 1 25 true).1 =
        (0.04 : ℚ) * 6.4e-5 * (12000 * 6.4e-5 - 20000 * 0.0016 + 300) := by
  refine ⟨by norm_num, by norm_num [init_one_table_cut, tableC1], ?_⟩
  exact (c1_force_formula mix_arith tableC1 1 1 1 25 true (by norm_num)
      (by norm_num [init_one_table_cut, tableC1])).trans
    (by norm_num [init_one_table_aterm, init_one_table_bterm, init_one_table_cterm, tableC1])

/-- Claim C2: for every finalized type pair and every squared distance
`rsq ≥ cutoff²`, the pair evaluation returns zero force and zero energy
(the pair contributes nothing: the `rsq < cutsq` guard of the compute
loop fails). -/
theorem c2_skip_beyond_cutoff (mix : ℚ → ℚ → ℚ) (T : Table) (i j : Nat)
    (factor rsq : ℚ) (eflag : Bool)
    (hcut : (init_one_table mix T i j).cut i j *
        (init_one_table mix T i j).cut i j ≤ rsq) :
    evaluate (init_one_table mix T i j) i j factor rsq eflag = (0, 0) := by
  unfold evaluate
  rw [if_neg (not_lt.mpr hcut)]

theorem c2_skip_beyond_cutoff_witness :
    (init_one_table mix_arith tableC1 1 1).cut 1 1 *
        (init_one_table mix_arith tableC1 1 1).cut 1 1 ≤ (100 : ℚ) ∧
      evaluate (init_one_table mix_arith tableC1 1 1) 1 1 1 100 true = (0, 0) :=
  ⟨by norm_num [init_one_table_cut, tableC1],
    c2_skip_beyond_cutoff mix_arith tableC1 1 1 1 100 true
      (by norm_num [init_one_table_cut, tableC1])⟩

/-- Example table for C3: only pair `(1,2)` is explicitly set, with
`a = 5` and distinct remaining coefficients; entry `(2,1)` was never
written (the code writes raw coefficients only at canonical `i ≤ j`). -/
def tableC3 : Table where
  setflag := fun a b => a == 1 && b == 2
  aterm := fun a b => if a = 1 ∧ b = 2 then 5 else 0
  bterm := fun a b => if a = 1 ∧ b = 2 then 7 else 0
  cterm := fun a b => if a = 1 ∧ b = 2 then 9 else 0
  cut := fun _ _ => 10
  lj1 := fun _ _ => 0
  lj2 := fun _ _ => 0
  lj3 := fun _ _ => 0
  lj4 := fun _ _ => 0
  lj5 := fun _ _ => 0
  lj6 := fun _ _ => 0
  offset := fun _ _ => 0

/-- Counterexample to claim C3 as stated: after `init_one(1,2)` the input
coefficient `a` is NOT mirrored into `(2,1)`: `aterm[2][1] = 0` while
`aterm[1][2] = 5` (lines 539-545 mirror only `lj1..lj6` and `offset`). -/
theorem c3_counterexample :
    (init_one_table mix_arith tableC3 1 2).aterm 2 1 ≠
      (init_one_table mix_arith tableC3 1 2).aterm 1 2 := by
  norm_num [init_one_table, upd2, tableC3]

/-- Claim C3 (amended): after `init_one(i,j)` all DERIVED constants
(`lj1..lj6`, i.e. `fC1..fC3`/`eC1..eC3`, and `offset`) at `(j,i)` equal
those at `(i,j)`; the raw input values `a, b, c, cutoff` are not copied
into `(j,i)`. -/
theorem c3_derived_mirrored (mix : ℚ → ℚ → ℚ) (T : Table) (i j : Nat) :
    (init_one_table mix T i j).lj1 j i = (init_one_table mix T i j).lj1 i j ∧
      (init_one_table mix T i j).lj2 j i = (init_one_table mix T i j).lj2 i j ∧
      (init_one_table mix T i j).lj3 j i = (init_one_table mix T i j).lj3 i j ∧
      (init_one_table mix T i j).lj4 j i = (init_one_table mix T i j).lj4 i j ∧
      (init_one_table mix T i j).lj5 j i = (init_one_table mix T i j).lj5 i j ∧
      (init_one_table mix T i j).lj6 j i = (init_one_table mix T i j).lj6 i j ∧
      (init_one_table mix T i j).offset j i = (init_one_table mix T i j).offset i j := by
  unfold init_one_table
  by_cases h : T.setflag i j <;> simp [h, upd2]

/-- Claim C9: with the multiple-timescale shell model active (`cut_respa`
non-null), `init_one(i,j)` aborts with a configuration error exactly when
the finalized pair cutoff is smaller than `cut_respa[3]` (the outermost
shell bound `outerOff`); with no shell model it always succeeds and
returns the finalized cutoff.  The check lives only in `init_one`; the
evaluation kernels (`evaluate`, the shell kernels) are total functions
with no error case. -/
theorem c9_respa_cutoff_check (mix : ℚ → ℚ → ℚ) (rb : RespaBounds)
    (T : Table) (i j : Nat) :
    (init_one mix (some rb) T i j = Except.error () ↔
        (init_one_table mix T i j).cut i j < rb.r3) ∧
      init_one mix none T i j =
        Except.ok (init_one_table mix T i j, (init_one_table mix T i j).cut i j) := by
  constructor
  · by_cases h : (init_one_table mix T i j).cut i j < rb.r3 <;> simp [init_one, h]
  · rfl

/-- The `dupair` output of `PairLJETEN::born_matrix` (lines 700-721):
`du = r6inv · rinv · (lj2 − lj1 · r6inv)`, scaled by the bond-exclusion
factor.  Parameterized by the distance `r` with `rsq = r·r`, so that
`rinv = sqrt(r2inv) = 1/r` exactly. -/
def born_matrix_du (T : Table) (itype jtype : Nat) (factor_lj r : ℚ) : ℚ :=
  let rsq := r * r
  let r2inv := 1 / rsq
  let rinv := 1 / r
  let r6inv := r2inv * r2inv * r2inv
  let du := r6inv * rinv * (T.lj2 itype jtype - T.lj1 itype jtype * r6inv)
  factor_lj * du

/-- The `du2pair` output of `PairLJETEN::born_matrix`:
`du2 = r6inv · r2inv · (13 · lj1 · r6inv − 7 · lj2)`, scaled by the
bond-exclusion factor. -/
def born_matrix_du2 (T : Table) (itype jtype : Nat) (factor_lj r : ℚ) : ℚ :=
  let rsq := r * r
  let r2inv := 1 / rsq
  let r6inv := r2inv * r2inv * r2inv
  let du2 := r6inv * r2inv * (13 * T.lj1 itype jtype * r6inv - 7 * T.lj2 itype jtype)
  factor_lj * du2

/-- Follows the claim's words (C7): the first derivative with respect to
distance of the pair energy `U(r) = a·r⁻¹² − b·r⁻¹⁰ + c·r⁻⁶`, scaled by
the bond-exclusion factor. -/
def claim_dUdr (a b c factor r : ℚ) : ℚ :=
  factor * (-12 * a / r ^ 13 + 10 * b / r ^ 11 - 6 * c / r ^ 7)

/-- Follows the claim's words (C7): the second derivative with respect to
distance of the pair energy `U(r) = a·r⁻¹² − b·r⁻¹⁰ + c·r⁻⁶`, scaled by
the bond-exclusion factor. -/
def claim_d2Udr2 (a b c factor r : ℚ) : ℚ :=
  factor * (156 * a / r ^ 14 - 110 * b / r ^ 12 + 42 * c / r ^ 8)

/-- Example table for C7: every pair set with `a = 0, b = 0, c = 1`
(pure `c·r⁻⁶` potential), cutoff 10. -/
def tableC7 : Table where
  setflag := fun _ _ => true
  aterm := fun _ _ => 0
  bterm := fun _ _ => 0
  cterm := fun _ _ => 1
  cut := fun _ _ => 10
  lj1 := fun _ _ => 0
  lj2 := fun _ _ => 0
  lj3 := fun _ _ => 0
  lj4 := fun _ _ => 0
  lj5 := fun _ _ => 0
  lj6 := fun _ _ => 0
  offset := fun _ _ => 0

/-- Claim C7 (code bug exhibit): for the finalized pair with
`a = 0, b = 0, c = 1` (so `U(r) = r⁻⁶`), factor 1, at `r = 1`
(`rsq = 1`), `born_matrix` returns `dupair = 0` and `du2pair = 0` —
its formula uses only `lj1 = 12a` and `lj2 = 10b` with 12-6
Lennard-Jones powers and ignores the `c` term entirely — while the
derivatives of the pair energy claimed by the spec are `dU/dr = −6` and
`d²U/dr² = 42`.  The in-code comment itself warns the formula is wrong
for this potential. -/
theorem c7_born_matrix_diverges :
    born_matrix_du (init_one_table mix_arith tableC7 1 1) 1 1 1 1 = 0 ∧
      born_matrix_du2 (init_one_table mix_arith tableC7 1 1) 1 1 1 1 = 0 ∧
      claim_dUdr ((init_one_table mix_arith tableC7 1 1).aterm 1 1)
          ((init_one_table mix_arith tableC7 1 1).bterm 1 1)
          ((init_one_table mix_arith tableC7 1 1).cterm 1 1) 1 1 = -6 ∧
      claim_d2Udr2 ((init_one_table mix_arith tableC7 1 1).aterm 1 1)
          ((init_one_table mix_arith tableC7 1 1).bterm 1 1)
          ((init_one_table mix_arith tableC7 1 1).cterm 1 1) 1 1 = 42 := by
  refine ⟨?_, ?_, ?_, ?_⟩ <;>
    norm_num [born_matrix_du, born_matrix_du2, claim_dUdr, claim_d2Udr2,
      init_one_table_lj1, init_one_table_lj2, init_one_table_aterm,
      init_one_table_bterm, init_one_table_cterm, tableC7]

/-- The per-pair force scalar `fpair` of `PairLJETEN::compute_inner`
(lines 193-202).  The innermost shell uses `cut_respa[0], cut_respa[1]`
as its fade-out window (`cut_out_on, cut_out_off`); outside
`cut_out_off` the pair contributes nothing.  Parameterized by the
distance `r` (`rsq = r·r`, `sqrt(rsq) = r`). -/
def compute_inner_fpair (rb : RespaBounds) (T : Table) (itype jtype : Nat)
    (factor_lj r : ℚ) : ℚ :=
  let cut_out_on := rb.r0
  let cut_out_off := rb.r1
  let cut_out_diff := cut_out_off - cut_out_on
  let cut_out_on_sq := cut_out_on * cut_out_on
  let cut_out_off_sq := cut_out_off * cut_out_off
  let rsq := r * r
  if rsq < cut_out_off_sq then
    let r2inv := 1 / rsq
    let r6inv := r2inv * r2inv * r2inv
    let forcelj := r6inv *
      (T.lj1 itype jtype * r6inv - T.lj2 itype jtype * r2inv * r2inv + T.lj3 itype jtype)
    let fpair := factor_lj * forcelj * r2inv
    if cut_out_on_sq < rsq then
      let rsw := (r - cut_out_on) / cut_out_diff
      fpair * (1 - rsw * rsw * (3 - 2 * rsw))
    else fpair
  else 0

/-- The per-pair force scalar `fpair` of `PairLJETEN::compute_middle`
(lines 271-284).  The middle shell is active for
`cut_in_off² < rsq < cut_out_off²` with `cut_in_off, cut_in_on =
cut_respa[0], cut_respa[1]` and `cut_out_on, cut_out_off =
cut_respa[2], cut_respa[3]`; it fades in over the inner window and fades
out over the outer window. -/
def compute_middle_fpair (rb : RespaBounds) (T : Table) (itype jtype : Nat)
    (factor_lj r : ℚ) : ℚ :=
  let cut_in_off := rb.r0
  let cut_in_on := rb.r1
  let cut_out_on := rb.r2
  let cut_out_off := rb.r3
  let cut_in_diff := cut_in_on - cut_in_off
  let cut_out_diff := cut_out_off - cut_out_on
  let cut_in_off_sq := cut_in_off * cut_in_off
  let cut_in_on_sq := cut_in_on * cut_in_on
  let cut_out_on_sq := cut_out_on * cut_out_on
  let cut_out_off_sq := cut_out_off * cut_out_off
  let rsq := r * r
  if rsq < cut_out_off_sq ∧ cut_in_off_sq < rsq then
    let r2inv := 1 / rsq
    let r6inv := r2inv * r2inv * r2inv
    let forcelj := r6inv *
      (T.lj1 itype jtype * r6inv - T.lj2 itype jtype * r2inv * r2inv + T.lj3 itype jtype)
    let fpair := factor_lj * forcelj * r2inv
    let fpair1 :=
      if rsq < cut_in_on_sq then
        let rsw := (r - cut_in_off) / cut_in_diff
        fpair * (rsw * rsw * (3 - 2 * rsw))
      else fpair
    if cut_out_on_sq < rsq then
      let rsw := (r - cut_out_on) / cut_out_diff
      fpair1 * (1 + rsw * rsw * (2 * rsw - 3))
    else fpair1
  else 0

/-- The per-pair force scalar `fpair` accumulated into the force array by
`PairLJETEN::compute_outer` (lines 352-361): active for pairs within the
type-pair cutoff with `rsq > cut_in_off²`, fading in over
`cut_in_off, cut_in_on = cut_respa[2], cut_respa[3]`; zero when the
force branch does not fire. -/
def compute_outer_fpair (rb : RespaBounds) (T : Table) (itype jtype : Nat)
    (factor_lj r : ℚ) : ℚ :=
  let cut_in_off := rb.r2
  let cut_in_on := rb.r3
  let cut_in_diff := cut_in_on - cut_in_off
  let cut_in_off_sq := cut_in_off * cut_in_off
  let cut_in_on_sq := cut_in_on * cut_in_on
  let rsq := r * r
  if rsq < T.cut itype jtype * T.cut itype jtype then
    if cut_in_off_sq < rsq then
      let r2inv := 1 / rsq
      let r6inv := r2inv * r2inv * r2inv
      let forcelj := r6inv *
        (T.lj1 itype jtype * r6inv - T.lj2 itype jtype * r2inv * r2inv + T.lj3 itype jtype)
      let fpair := factor_lj * forcelj * r2inv
      if rsq < cut_in_on_sq then
        let rsw := (r - cut_in_off) / cut_in_diff
        fpair * (rsw * rsw * (3 - 2 * rsw))
      else fpair
    else 0
  else 0

/-- The value held by `fpair` at the `ev_tally` call of
`PairLJETEN::compute_outer` when the virial is requested (lines 380-390),
for a pair within the cutoff: for `rsq ≤ cut_in_off²` the raw unsmoothed
magnitude is re-evaluated from scratch; for
`cut_in_off² < rsq < cut_in_on²` the code overwrites `fpair` with
`factor_lj * forcelj * r2inv`, where `forcelj` and `r2inv` are the
force branch's unswitched intermediates (lines 354-356); otherwise
`fpair` keeps the force branch's value. -/
def compute_outer_virial_fpair (rb : RespaBounds) (T : Table) (itype jtype : Nat)
    (factor_lj r : ℚ) : ℚ :=
  let cut_in_off_sq := rb.r2 * rb.r2
  let cut_in_on_sq := rb.r3 * rb.r3
  let rsq := r * r
  if rsq ≤ cut_in_off_sq then
    let r2inv := 1 / rsq
    let r6inv := r2inv * r2inv * r2inv
    let forcelj := r6inv *
      (T.lj1 itype jtype * r6inv - T.lj2 itype jtype * r2inv * r2inv + T.lj3 itype jtype)
    factor_lj * forcelj * r2inv
  else if rsq < cut_in_on_sq then
    let r2inv := 1 / rsq
    let r6inv := r2inv * r2inv * r2inv
    let forcelj := r6inv *
      (T.lj1 itype jtype * r6inv - T.lj2 itype jtype * r2inv * r2inv + T.lj3 itype jtype)
    factor_lj * forcelj * r2inv
  else compute_outer_fpair rb T itype jtype factor_lj r

/-- Shell bounds used in the concrete shell-kernel examples:
`cut_respa = [1, 2, 3, 4]`. -/
def rbEx : RespaBounds where
  r0 := 1
  r1 := 2
  r2 := 3
  r3 := 4

/-- Example table for the shell kernels: every pair set with
`a = b = c = 1`, cutoff 10, then finalized for pair `(1,1)`
(so `lj1 = 12, lj2 = 10, lj3 = 6`). -/
def tableSh : Table :=
  init_one_table mix_arith
    { setflag := fun _ _ => true
      aterm := fun _ _ => 1
      bterm := fun _ _ => 1
      cterm := fun _ _ => 1
      cut := fun _ _ => 10
      lj1 := fun _ _ => 0
      lj2 := fun _ _ => 0
      lj3 := fun _ _ => 0
      lj4 := fun _ _ => 0
      lj5 := fun _ _ => 0
      lj6 := fun _ _ => 0
      offset := fun _ _ => 0 } 1 1

/-- Counterexample to claim C4 as stated: at the shell boundary
`rsq = innerOn²` (`r = cut_respa[1] = 2`, where the Inner and Middle
radial windows meet), the Inner mode computes force `0` (its strict
window `rsq < cut_respa[1]²` excludes the boundary) while the Middle
mode computes the full raw force magnitude (its Hermite fade-in applies
only for `rsq < cut_respa[1]²`), so the two modes' force magnitudes do
not agree there. -/
theorem c4_counterexample :
    compute_inner_fpair rbEx tableSh 1 1 1 2 ≠
      compute_middle_fpair rbEx tableSh 1 1 1 2 := by
  norm_num [compute_inner_fpair, compute_middle_fpair, tableSh,
    init_one_table, upd2, rbEx]

/-- Counterexample to claim C6 as stated: in the window
`innerOff² < rsq < innerOn²` (`r = 7/2` with `cut_respa[2] = 3`,
`cut_respa[3] = 4`) the virial re-derivation of `compute_outer` does NOT
reuse the smoothed (switched) `fpair` of the force branch: it overwrites
it with the unsmoothed `factor_lj * forcelj * r2inv`. -/
theorem c6_counterexample :
    compute_outer_virial_fpair rbEx tableSh 1 1 1 (7 / 2) ≠
      compute_outer_fpair rbEx tableSh 1 1 1 (7 / 2) := by
  norm_num [compute_outer_virial_fpair, compute_outer_fpair, tableSh,
    init_one_table, upd2, rbEx]

/-- Claim C6 (amended): in the Outer virial re-derivation, for every pair
with `rsq ≤ innerOff²` the tallied value is the re-evaluated unsmoothed
raw force magnitude, for `innerOff² < rsq < innerOn²` it is likewise the
unsmoothed raw magnitude recomputed as `factor_lj · forcelj · r2inv`
from the force branch's unswitched intermediates (not the switched
`fpair`), and otherwise the virial-only recomputation contributes
nothing, leaving the force branch's value: altogether, below `innerOn²`
the tallied value is the raw unsmoothed force. -/
theorem c6_virial_unsmoothed (rb : RespaBounds) (T : Table) (itype jtype : Nat)
    (factor_lj r : ℚ) (h0 : 0 ≤ rb.r2) (h23 : rb.r2 < rb.r3) :
    compute_outer_virial_fpair rb T itype jtype factor_lj r =
      if r * r < rb.r3 * rb.r3 then single_fforce T itype jtype factor_lj (r * r)
      else compute_outer_fpair rb T itype jtype factor_lj r := by
  have hsq : rb.r2 * rb.r2 < rb.r3 * rb.r3 :=
    (mul_self_lt_mul_self_iff h0 (h0.trans h23.le)).mp h23
  unfold compute_outer_virial_fpair single_fforce
  by_cases h1 : r * r ≤ rb.r2 * rb.r2
  · rw [if_pos h1, if_pos (lt_of_le_of_lt h1 hsq)]
  · rw [if_neg h1]

theorem c6_virial_unsmoothed_witness :
    (0 : ℚ) ≤ rbEx.r2 ∧ rbEx.r2 < rbEx.r3 ∧
      compute_outer_virial_fpair rbEx tableSh 1 1 1 (7 / 2) =
        (if (7 / 2 : ℚ) * (7 / 2) < rbEx.r3 * rbEx.r3 then
          single_fforce tableSh 1 1 1 ((7 / 2) * (7 / 2))
        else compute_outer_fpair rbEx tableSh 1 1 1 (7 / 2)) :=
  ⟨by norm_num [rbEx], by norm_num [rbEx],
    c6_virial_unsmoothed rbEx tableSh 1 1 1 (7 / 2)
      (by norm_num [rbEx]) (by norm_num [rbEx])⟩

/-- Claim C4 (amended): with ordered shell bounds
`0 ≤ innerOff < innerOn ≤ outerOn < outerOff ≤ cutoff`, at every
distance `0 < r < cutoff` the SUM of the Inner, Middle, and Outer mode
force magnitudes equals the unswitched raw force magnitude of the plain
kernel; the matched Hermite switching factors therefore make the total
multi-timescale force continuous (and equal to the unsplit force) at
and across every shell boundary, even though the individual modes are
discontinuous at their own window edges. -/
theorem c4_shell_sum (rb : RespaBounds) (T : Table) (itype jtype : Nat)
    (factor_lj r : ℚ)
    (h0 : 0 ≤ rb.r0) (h01 : rb.r0 < rb.r1) (h12 : rb.r1 ≤ rb.r2)
    (h23 : rb.r2 < rb.r3) (h3c : rb.r3 ≤ T.cut itype jtype)
    (hr : 0 < r) (hrc : r < T.cut itype jtype) :
    compute_inner_fpair rb T itype jtype factor_lj r +
        compute_middle_fpair rb T itype jtype factor_lj r +
        compute_outer_fpair rb T itype jtype factor_lj r =
      single_fforce T itype jtype factor_lj (r * r) := by
  have hr0 : (0 : ℚ) ≤ r := hr.le
  have h1p : (0 : ℚ) ≤ rb.r1 := h0.trans h01.le
  have h2p : (0 : ℚ) ≤ rb.r2 := h1p.trans h12
  have h3p : (0 : ℚ) ≤ rb.r3 := h2p.trans h23.le
  have hcp : (0 : ℚ) ≤ T.cut itype jtype := h3p.trans h3c
  have hcut2 : r * r < T.cut itype jtype * T.cut itype jtype :=
    (mul_self_lt_mul_self_iff hr0 hcp).mp hrc
  simp only [compute_inner_fpair, compute_middle_fpair, compute_outer_fpair,
    single_fforce]
  rcases le_or_lt r rb.r0 with hA | hB0
  · have g1 : r * r < rb.r1 * rb.r1 :=
      (mul_self_lt_mul_self_iff hr0 h1p).mp (lt_of_le_of_lt hA h01)
    have g0 : ¬ rb.r0 * rb.r0 < r * r := not_lt.mpr (mul_self_le_mul_self hr0 hA)
    have g2 : ¬ rb.r2 * rb.r2 < r * r :=
      not_lt.mpr (mul_self_le_mul_self hr0 (hA.trans (h01.le.trans h12)))
    have gm : ¬ (r * r < rb.r3 * rb.r3 ∧ rb.r0 * rb.r0 < r * r) := fun h => g0 h.2
    simp only [if_pos g1, if_neg g0, if_neg gm, if_pos hcut2, if_neg g2]
    ring
  · rcases lt_or_le r rb.r1 with hB1 | hC1
    · have g1 : r * r < rb.r1 * rb.r1 := (mul_self_lt_mul_self_iff hr0 h1p).mp hB1
      have g0 : rb.r0 * rb.r0 < r * r := (mul_self_lt_mul_self_iff h0 hr0).mp hB0
      have g3 : r * r < rb.r3 * rb.r3 :=
        (mul_self_lt_mul_self_iff hr0 h3p).mp (hB1.trans_le (h12.trans h23.le))
      have g2 : ¬ rb.r2 * rb.r2 < r * r :=
        not_lt.mpr (mul_self_le_mul_self hr0 (hB1.le.trans h12))
      simp only [if_pos g1, if_pos g0, if_pos (And.intro g3 g0), if_pos hcut2,
        if_neg g2]
      ring
    · rcases le_or_lt r rb.r2 with hC2 | hD2
      · have g1 : ¬ r * r < rb.r1 * rb.r1 :=
          not_lt.mpr (mul_self_le_mul_self h1p hC1)
        have g0 : rb.r0 * rb.r0 < r * r :=
          (mul_self_lt_mul_self_iff h0 hr0).mp (h01.trans_le hC1)
        have g3 : r * r < rb.r3 * rb.r3 :=
          (mul_self_lt_mul_self_iff hr0 h3p).mp (lt_of_le_of_lt hC2 h23)
        have g2 : ¬ rb.r2 * rb.r2 < r * r := not_lt.mpr (mul_self_le_mul_self hr0 hC2)
        simp only [if_neg g1, if_pos g0, if_pos (And.intro g3 g0), if_pos hcut2,
          if_neg g2]
        ring
      · rcases lt_or_le r rb.r3 with hD3 | hE
        · have g1 : ¬ r * r < rb.r1 * rb.r1 :=
            not_lt.mpr (mul_self_le_mul_self h1p (h12.trans hD2.le))
          have g0 : rb.r0 * rb.r0 < r * r :=
            (mul_self_lt_mul_self_iff h0 hr0).mp (h01.trans_le (h12.trans hD2.le))
          have g3 : r * r < rb.r3 * rb.r3 := (mul_self_lt_mul_self_iff hr0 h3p).mp hD3
          have g2 : rb.r2 * rb.r2 < r * r := (mul_self_lt_mul_self_iff h2p hr0).mp hD2
          simp only [if_neg g1, if_pos g0, if_pos (And.intro g3 g0), if_pos hcut2,
            if_pos g2, if_pos g3]
          ring
        · have g1 : ¬ r * r < rb.r1 * rb.r1 :=
            not_lt.mpr (mul_self_le_mul_self h1p ((h12.trans h23.le).trans hE))
          have g3 : ¬ r * r < rb.r3 * rb.r3 := not_lt.mpr (mul_self_le_mul_self h3p hE)
          have gm : ¬ (r * r < rb.r3 * rb.r3 ∧ rb.r0 * rb.r0 < r * r) := fun h => g3 h.1
          have g2 : rb.r2 * rb.r2 < r * r :=
            (mul_self_lt_mul_self_iff h2p hr0).mp (h23.trans_le hE)
          simp only [if_neg g1, if_neg gm, if_pos hcut2, if_pos g2, if_neg g3]
          ring

theorem c4_shell_sum_witness :
    (0 : ℚ) ≤ rbEx.r0 ∧ rbEx.r0 < rbEx.r1 ∧ rbEx.r1 ≤ rbEx.r2 ∧
      rbEx.r2 < rbEx.r3 ∧ rbEx.r3 ≤ tableSh.cut 1 1 ∧ (0 : ℚ) < 3 ∧
      (3 : ℚ) < tableSh.cut 1 1 ∧
      compute_inner_fpair rbEx tableSh 1 1 1 3 +
          compute_middle_fpair rbEx tableSh 1 1 1 3 +
          compute_outer_fpair rbEx tableSh 1 1 1 3 =
        single_fforce tableSh 1 1 1 (3 * 3) :=
  ⟨by norm_num [rbEx], by norm_num [rbEx], by norm_num [rbEx], by norm_num [rbEx],
    by norm_num [rbEx, tableSh, init_one_table_cut], by norm_num,
    by norm_num [tableSh, init_one_table_cut],
    c4_shell_sum rbEx tableSh 1 1 1 3 (by norm_num [rbEx]) (by norm_num [rbEx])
      (by norm_num [rbEx]) (by norm_num [rbEx])
      (by norm_num [rbEx, tableSh, init_one_table_cut]) (by norm_num)
      (by norm_num [tableSh, init_one_table_cut])⟩

/-- The canonical type-pair enumeration `i = 1..n`, `j = i..n` used by
the coefficient-table loops (`settings`, `write_restart`,
`read_restart`). -/
def pairs (n : Nat) : List (Nat × Nat) :=
  (List.range' 1 n).flatMap fun i => (List.range' i (n + 1 - i)).map fun j => (i, j)

lemma mem_pairs (n i j : Nat) : (i, j) ∈ pairs n ↔ 1 ≤ i ∧ i ≤ j ∧ j ≤ n := by
  constructor
  · intro h
    simp only [pairs, List.mem_flatMap, List.mem_map, List.mem_range'_1] at h
    obtain ⟨a, ⟨ha1, ha2⟩, b, ⟨hb1, hb2⟩, hab⟩ := h
    obtain ⟨rfl, rfl⟩ := Prod.mk.injEq .. ▸ hab
    omega
  · rintro ⟨h1, h2, h3⟩
    simp only [pairs, List.mem_flatMap, List.mem_map, List.mem_range'_1]
    exact ⟨i, ⟨h1, by omega⟩, j, ⟨h2, by omega⟩, rfl⟩

/-- One iteration of the cutoff-reset loop of `PairLJETEN::settings`
(lines 436-441): overwrite `cut[i][j]` with the new global cutoff when
`setflag[i][j]` is set. -/
def settingsStep (v : ℚ) (T : Table) (p : Nat × Nat) : Table :=
  if T.setflag p.1 p.2 then { T with cut := upd2 T.cut p.1 p.2 v } else T

/-- The table effect of `PairLJETEN::settings` when the table is already
allocated (lines 428-442): `cut_global` becomes `v` and every canonical
pair `(i ≤ j)` with `setflag` set has its stored cutoff overwritten by
`v`. -/
def settings (n : Nat) (T : Table) (v : ℚ) : Table :=
  (pairs n).foldl (settingsStep v) T

lemma settingsStep_setflag (v : ℚ) (T : Table) (p : Nat × Nat) :
    (settingsStep v T p).setflag = T.setflag := by
  unfold settingsStep; split <;> rfl

lemma settingsStep_aterm (v : ℚ) (T : Table) (p : Nat × Nat) :
    (settingsStep v T p).aterm = T.aterm := by
  unfold settingsStep; split <;> rfl

lemma settingsStep_bterm (v : ℚ) (T : Table) (p : Nat × Nat) :
    (settingsStep v T p).bterm = T.bterm := by
  unfold settingsStep; split <;> rfl

lemma settingsStep_cterm (v : ℚ) (T : Table) (p : Nat × Nat) :
    (settingsStep v T p).cterm = T.cterm := by
  unfold settingsStep; split <;> rfl

lemma settings_foldl_setflag (v : ℚ) :
    ∀ (ps : List (Nat × Nat)) (T : Table),
      (ps.foldl (settingsStep v) T).setflag = T.setflag := by
  intro ps
  induction ps with
  | nil => intro T; rfl
  | cons p ps ih =>
    intro T
    simp only [List.foldl_cons, ih, settingsStep_setflag]

lemma settings_foldl_aterm (v : ℚ) :
    ∀ (ps : List (Nat × Nat)) (T : Table),
      (ps.foldl (settingsStep v) T).aterm = T.aterm := by
  intro ps
  induction ps with
  | nil => intro T; rfl
  | cons p ps ih =>
    intro T
    simp only [List.foldl_cons, ih, settingsStep_aterm]

lemma settings_foldl_bterm (v : ℚ) :
    ∀ (ps : List (Nat × Nat)) (T : Table),
      (ps.foldl (settingsStep v) T).bterm = T.bterm := by
  intro ps
  induction ps with
  | nil => intro T; rfl
  | cons p ps ih =>
    intro T
    simp only [List.foldl_cons, ih, settingsStep_bterm]

lemma settings_foldl_cterm (v : ℚ) :
    ∀ (ps : List (Nat × Nat)) (T : Table),
      (ps.foldl (settingsStep v) T).cterm = T.cterm := by
  intro ps
  induction ps with
  | nil => intro T; rfl
  | cons p ps ih =>
    intro T
    simp only [List.foldl_cons, ih, settingsStep_cterm]

lemma settings_foldl_cut (v : ℚ) (i j : Nat) :
    ∀ (ps : List (Nat × Nat)) (T : Table),
      (ps.foldl (settingsStep v) T).cut i j =
        if (i, j) ∈ ps ∧ T.setflag i j = true then v else T.cut i j := by
  intro ps
  induction ps with
  | nil => intro T; simp
  | cons p ps ih =>
    intro T
    rw [List.foldl_cons, ih, settingsStep_setflag]
    by_cases hp : (i, j) = p
    · subst hp
      by_cases hf : T.setflag i j = true
      · simp [settingsStep, upd2, hf]
      · simp [settingsStep, upd2, hf]
    · have hcut : (settingsStep v T p).cut i j = T.cut i j := by
        unfold settingsStep
        split
        · simp only [upd2]
          rw [if_neg]
          intro hmem
          exact hp (by cases p; simp_all)
        · rfl
      rw [hcut]
      by_cases hm : (i, j) ∈ ps
      · simp [hm, List.mem_cons]
      · have : (i, j) ∉ p :: ps := by
          simp only [List.mem_cons]
          rintro (h | h)
          · exact hp h
          · exact hm h
        simp [hm, this]

/-- Claim C10: on an allocated table, resetting the global cutoff to `v`
overwrites the stored cutoff of every canonical pair `(i ≤ j)` whose
`setflag` is set — including pairs whose cutoff was explicitly
overridden earlier — with `v`, and leaves `a`, `b`, `c`, `setflag`, and
the stored cutoffs of unset pairs unchanged. -/
theorem c10_settings_resets_cutoffs (n : Nat) (T : Table) (v : ℚ) (i j : Nat)
    (h1 : 1 ≤ i) (h2 : i ≤ j) (h3 : j ≤ n) :
    (settings n T v).setflag i j = T.setflag i j ∧
      (settings n T v).aterm i j = T.aterm i j ∧
      (settings n T v).bterm i j = T.bterm i j ∧
      (settings n T v).cterm i j = T.cterm i j ∧
      (T.setflag i j = true → (settings n T v).cut i j = v) ∧
      (T.setflag i j = false → (settings n T v).cut i j = T.cut i j) := by
  unfold settings
  refine ⟨by rw [settings_foldl_setflag], by rw [settings_foldl_aterm],
    by rw [settings_foldl_bterm], by rw [settings_foldl_cterm], ?_, ?_⟩
  · intro hf
    rw [settings_foldl_cut, if_pos ⟨(mem_pairs n i j).mpr ⟨h1, h2, h3⟩, hf⟩]
  · intro hf
    rw [settings_foldl_cut, if_neg]
    rintro ⟨-, hset⟩
    rw [hf] at hset
    exact Bool.false_ne_true hset

theorem c10_settings_resets_cutoffs_witness :
    1 ≤ 1 ∧ 1 ≤ 2 ∧ 2 ≤ 2 ∧
      (settings 2 tableC1 7).setflag 1 2 = tableC1.setflag 1 2 ∧
      (settings 2 tableC1 7).aterm 1 2 = tableC1.aterm 1 2 ∧
      (settings 2 tableC1 7).bterm 1 2 = tableC1.bterm 1 2 ∧
      (settings 2 tableC1 7).cterm 1 2 = tableC1.cterm 1 2 ∧
      (tableC1.setflag 1 2 = true → (settings 2 tableC1 7).cut 1 2 = 7) ∧
      (tableC1.setflag 1 2 = false → (settings 2 tableC1 7).cut 1 2 = tableC1.cut 1 2) := by
  refine ⟨by norm_num, by norm_num, by norm_num, ?_⟩
  have h := c10_settings_resets_cutoffs 2 tableC1 7 1 2 (by norm_num) (by norm_num)
    (by norm_num)
  exact ⟨h.1, h.2.1, h.2.2.1, h.2.2.2.1, h.2.2.2.2.1, h.2.2.2.2.2⟩

/-- The rectangular pair range written by `PairLJETEN::coeff`
(lines 465-474): `i = ilo..ihi`, `j = max(jlo, i)..jhi`. -/
def coeffPairs (ilo ihi jlo jhi : Nat) : List (Nat × Nat) :=
  (List.range' ilo (ihi + 1 - ilo)).flatMap fun i =>
    (List.range' (max jlo i) (jhi + 1 - max jlo i)).map fun j => (i, j)

/-- One write of the `coeff` loop body (lines 467-472): store the three
fundamental coefficients and the cutoff at `(i, j)` and mark the pair
set. -/
def coeffApply (a b c cu : ℚ) (T : Table) (p : Nat × Nat) : Table :=
  { T with
    aterm := upd2 T.aterm p.1 p.2 a
    bterm := upd2 T.bterm p.1 p.2 b
    cterm := upd2 T.cterm p.1 p.2 c
    cut := upd2 T.cut p.1 p.2 cu
    setflag := upd2 T.setflag p.1 p.2 true }

/-- `PairLJETEN::coeff` (lines 448-477).  `vals` models the positional
coefficient arguments `arg[2..]` (3 fundamental coefficients plus an
optional cutoff override), so the source guard `narg < 5 || narg > 6`
becomes `vals.length < 3 ∨ 4 < vals.length`; `error->all` is
`Except.error ()`.  The type bounds `ilo..ihi, jlo..jhi` come from the
engine's bounds parser (outside this translation unit); an empty range
is caught by the `count == 0` check after the (then write-free) loop. -/
def coeff (T : Table) (cut_global : ℚ) (ilo ihi jlo jhi : Nat) (vals : List ℚ) :
    Except Unit Table :=
  if vals.length < 3 ∨ 4 < vals.length then Except.error ()
  else
    let aterm_one := vals.getD 0 0
    let bterm_one := vals.getD 1 0
    let cterm_one := vals.getD 2 0
    let cut_one := if vals.length = 4 then vals.getD 3 0 else cut_global
    let T2 := (coeffPairs ilo ihi jlo jhi).foldl
      (coeffApply aterm_one bterm_one cterm_one cut_one) T
    if (coeffPairs ilo ihi jlo jhi).length = 0 then Except.error () else Except.ok T2

/-- Claim C8: calling the coefficient-setting operation with fewer than
3 or more than 4 positional coefficient values, or with an empty type
range, fails with a configuration error; and in the empty-range case
the write loop runs over no pairs, so the table is left unmodified (in
the wrong-argument-count case the error precedes any write). -/
theorem c8_coeff_rejects_bad_args (T : Table) (cut_global : ℚ)
    (ilo ihi jlo jhi : Nat) (vals : List ℚ)
    (h : vals.length < 3 ∨ 4 < vals.length ∨ coeffPairs ilo ihi jlo jhi = []) :
    coeff T cut_global ilo ihi jlo jhi vals = Except.error () ∧
      ∀ a b c cu : ℚ, coeffPairs ilo ihi jlo jhi = [] →
        (coeffPairs ilo ihi jlo jhi).foldl (coeffApply a b c cu) T = T := by
  refine ⟨?_, fun a b c cu he => by rw [he]; rfl⟩
  unfold coeff
  rcases h with h | h | h
  · rw [if_pos (Or.inl h)]
  · rw [if_pos (Or.inr h)]
  · by_cases hlen : vals.length < 3 ∨ 4 < vals.length
    · rw [if_pos hlen]
    · rw [if_neg hlen, h]
      simp

theorem c8_coeff_rejects_bad_args_witness :
    ((List.length [(1 : ℚ), 2] < 3 ∨ 4 < List.length [(1 : ℚ), 2]) ∨
        coeffPairs 1 2 1 2 = []) ∧
      coeff tableC1 10 1 2 1 2 [(1 : ℚ), 2] = Except.error () ∧
      (∀ a b c cu : ℚ, coeffPairs 1 2 1 2 = [] →
        (coeffPairs 1 2 1 2).foldl (coeffApply a b c cu) tableC1 = tableC1) :=
  ⟨Or.inl (Or.inl (by norm_num)),
    (c8_coeff_rejects_bad_args tableC1 10 1 2 1 2 [(1 : ℚ), 2]
      (Or.inl (by norm_num))).1,
    (c8_coeff_rejects_bad_args tableC1 10 1 2 1 2 [(1 : ℚ), 2]
      (Or.inl (by norm_num))).2⟩

/-- One fixed-width record element of the restart stream: the `int`
set-flag written by `fwrite(&setflag[i][j], ...)` or one `double`
value. -/
inductive RItem where
  | flag : Bool → RItem
  | val : ℚ → RItem

/-- The bytes `PairLJETEN::write_restart` emits for one canonical pair
(lines 590-598): the set flag, followed — only if set — by
`aterm, bterm, cterm, cut`. -/
def writePairItems (T : Table) (p : Nat × Nat) : List RItem :=
  RItem.flag (T.setflag p.1 p.2) ::
    (if T.setflag p.1 p.2 then
      [RItem.val (T.aterm p.1 p.2), RItem.val (T.bterm p.1 p.2),
        RItem.val (T.cterm p.1 p.2), RItem.val (T.cut p.1 p.2)]
    else [])

/-- The per-pair stream of `PairLJETEN::write_restart` (lines 584-599)
over a canonical pair enumeration (the global-settings header of
`write_restart_settings` precedes it and is fixed-width, so the per-pair
payload is modelled on its own). -/
def write_restart (ps : List (Nat × Nat)) (T : Table) : List RItem :=
  ps.flatMap (writePairItems T)

/-- One pair record of `PairLJETEN::read_restart` (lines 614-627): read
the flag into `setflag[i][j]`; if set, read `aterm, bterm, cterm, cut`.
A truncated or malformed stream is a fatal read error (`none`). -/
def readPair (T : Table) (p : Nat × Nat) (s : List RItem) :
    Option (Table × List RItem) :=
  match s with
  | RItem.flag b :: s1 =>
    if b then
      match s1 with
      | RItem.val a :: RItem.val b2 :: RItem.val c :: RItem.val cu :: s2 =>
        some
          ({ T with
              setflag := upd2 T.setflag p.1 p.2 true
              aterm := upd2 T.aterm p.1 p.2 a
              bterm := upd2 T.bterm p.1 p.2 b2
              cterm := upd2 T.cterm p.1 p.2 c
              cut := upd2 T.cut p.1 p.2 cu }, s2)
      | _ => none
    else some ({ T with setflag := upd2 T.setflag p.1 p.2 false }, s1)
  | _ => none

/-- `PairLJETEN::read_restart` (lines 605-629) over a pair enumeration:
reads each pair record in order into the (freshly allocated) table `T`,
failing on truncation. -/
def read_restart : List (Nat × Nat) → Table → List RItem → Option (Table × List RItem)
  | [], T, s => some (T, s)
  | p :: ps, T, s =>
    match readPair T p s with
    | some (T1, s1) => read_restart ps T1 s1
    | none => none

/-- The table effect of reading back one pair record that was written
from `src`: restore the flag, and the raw values when the flag is set. -/
def restorePair (src : Table) (T : Table) (p : Nat × Nat) : Table :=
  if src.setflag p.1 p.2 then
    { T with
      setflag := upd2 T.setflag p.1 p.2 true
      aterm := upd2 T.aterm p.1 p.2 (src.aterm p.1 p.2)
      bterm := upd2 T.bterm p.1 p.2 (src.bterm p.1 p.2)
      cterm := upd2 T.cterm p.1 p.2 (src.cterm p.1 p.2)
      cut := upd2 T.cut p.1 p.2 (src.cut p.1 p.2) }
  else { T with setflag := upd2 T.setflag p.1 p.2 false }

lemma readPair_write (T U : Table) (p : Nat × Nat) (rest : List RItem) :
    readPair U p (writePairItems T p ++ rest) = some (restorePair T U p, rest) := by
  unfold writePairItems readPair restorePair
  by_cases h : T.setflag p.1 p.2 <;> simp [h]

lemma read_restart_write (rest : List RItem) :
    ∀ (ps : List (Nat × Nat)) (T U : Table),
      read_restart ps U (write_restart ps T ++ rest) =
        some (ps.foldl (restorePair T) U, rest) := by
  intro ps
  induction ps with
  | nil => intro T U; rfl
  | cons p ps ih =>
    intro T U
    rw [write_restart, List.flatMap_cons, List.append_assoc]
    show (match readPair U p (writePairItems T p ++ (write_restart ps T ++ rest)) with
      | some (T1, s1) => read_restart ps T1 s1
      | none => none) = _
    rw [readPair_write]
    simpa using ih T (restorePair T U p)

lemma restorePair_ne (T U : Table) (p : Nat × Nat) (i j : Nat) (h : (i, j) ≠ p) :
    (restorePair T U p).setflag i j = U.setflag i j ∧
      (restorePair T U p).aterm i j = U.aterm i j ∧
      (restorePair T U p).bterm i j = U.bterm i j ∧
      (restorePair T U p).cterm i j = U.cterm i j ∧
      (restorePair T U p).cut i j = U.cut i j := by
  have hij : ¬(i = p.1 ∧ j = p.2) := by
    rintro ⟨h1, h2⟩
    exact h (by cases p; simp_all)
  unfold restorePair
  by_cases hs : T.setflag p.1 p.2 <;> simp [hs, upd2, hij]

lemma restorePair_self (T U : Table) (p : Nat × Nat) :
    (restorePair T U p).setflag p.1 p.2 = T.setflag p.1 p.2 ∧
      (T.setflag p.1 p.2 = true →
        (restorePair T U p).aterm p.1 p.2 = T.aterm p.1 p.2 ∧
        (restorePair T U p).bterm p.1 p.2 = T.bterm p.1 p.2 ∧
        (restorePair T U p).cterm p.1 p.2 = T.cterm p.1 p.2 ∧
        (restorePair T U p).cut p.1 p.2 = T.cut p.1 p.2) ∧
      (T.setflag p.1 p.2 = false →
        (restorePair T U p).aterm p.1 p.2 = U.aterm p.1 p.2 ∧
        (restorePair T U p).bterm p.1 p.2 = U.bterm p.1 p.2 ∧
        (restorePair T U p).cterm p.1 p.2 = U.cterm p.1 p.2 ∧
        (restorePair T U p).cut p.1 p.2 = U.cut p.1 p.2) := by
  unfold restorePair
  by_cases hs : T.setflag p.1 p.2 <;> simp [hs, upd2]

lemma restore_foldl_not_mem (T : Table) (i j : Nat) :
    ∀ (ps : List (Nat × Nat)) (U : Table), (i, j) ∉ ps →
      ((ps.foldl (restorePair T) U).setflag i j = U.setflag i j ∧
        (ps.foldl (restorePair T) U).aterm i j = U.aterm i j ∧
        (ps.foldl (restorePair T) U).bterm i j = U.bterm i j ∧
        (ps.foldl (restorePair T) U).cterm i j = U.cterm i j ∧
        (ps.foldl (restorePair T) U).cut i j = U.cut i j) := by
  intro ps
  induction ps with
  | nil => intro U _; exact ⟨rfl, rfl, rfl, rfl, rfl⟩
  | cons p ps ih =>
    intro U h
    have hne : (i, j) ≠ p := fun hc => h (by rw [hc]; exact List.mem_cons_self p ps)
    have hps : (i, j) ∉ ps := fun hc => h (List.mem_cons_of_mem p hc)
    rw [List.foldl_cons]
    obtain ⟨e1, e2, e3, e4, e5⟩ := ih (restorePair T U p) hps
    obtain ⟨f1, f2, f3, f4, f5⟩ := restorePair_ne T U p i j hne
    exact ⟨e1.trans f1, e2.trans f2, e3.trans f3, e4.trans f4, e5.trans f5⟩

lemma restore_foldl_mem (T : Table) (i j : Nat) :
    ∀ (ps : List (Nat × Nat)) (U : Table), (i, j) ∈ ps →
      ((ps.foldl (restorePair T) U).setflag i j = T.setflag i j ∧
        (T.setflag i j = true →
          (ps.foldl (restorePair T) U).aterm i j = T.aterm i j ∧
          (ps.foldl (restorePair T) U).bterm i j = T.bterm i j ∧
          (ps.foldl (restorePair T) U).cterm i j = T.cterm i j ∧
          (ps.foldl (restorePair T) U).cut i j = T.cut i j) ∧
        (T.setflag i j = false →
          (ps.foldl (restorePair T) U).aterm i j = U.aterm i j ∧
          (ps.foldl (restorePair T) U).bterm i j = U.bterm i j ∧
          (ps.foldl (restorePair T) U).cterm i j = U.cterm i j ∧
          (ps.foldl (restorePair T) U).cut i j = U.cut i j)) := by
  intro ps
  induction ps with
  | nil => intro U h; exact absurd h (List.not_mem_nil _)
  | cons p ps ih =>
    intro U h
    rw [List.foldl_cons]
    by_cases hm : (i, j) ∈ ps
    · obtain ⟨e1, e2, e3⟩ := ih (restorePair T U p) hm
      refine ⟨e1, e2, fun hf => ?_⟩
      obtain ⟨g1, g2, g3, g4⟩ := e3 hf
      by_cases hp : (i, j) = p
      · subst hp
        obtain ⟨-, -, u⟩ := restorePair_self T U (i, j)
        obtain ⟨u1, u2, u3, u4⟩ := u hf
        exact ⟨g1.trans u1, g2.trans u2, g3.trans u3, g4.trans u4⟩
      · obtain ⟨-, f2, f3, f4, f5⟩ := restorePair_ne T U p i j hp
        exact ⟨g1.trans f2, g2.trans f3, g3.trans f4, g4.trans f5⟩
    · have hp : (i, j) = p := by
        rcases List.mem_cons.mp h with h1 | h1
        · exact h1
        · exact absurd h1 hm
      obtain ⟨e1, e2, e3, e4, e5⟩ := restore_foldl_not_mem T i j ps (restorePair T U p) hm
      obtain ⟨s1, s2, s3⟩ := restorePair_self T U p
      subst hp
      refine ⟨e1.trans s1, fun hf => ?_, fun hf => ?_⟩
      · obtain ⟨u1, u2, u3, u4⟩ := s2 hf
        exact ⟨e2.trans u1, e3.trans u2, e4.trans u3, e5.trans u4⟩
      · obtain ⟨u1, u2, u3, u4⟩ := s3 hf
        exact ⟨e2.trans u1, e3.trans u2, e4.trans u3, e5.trans u4⟩

/-- A freshly allocated table, as produced by `allocate` inside
`read_restart`: only `setflag` is initialized (to unset); `memory->create`
leaves the numeric arrays uninitialized, modelled here with the concrete
fill value 0 for the example tables (the round-trip lemmas take the
fresh table as an arbitrary parameter). -/
def tableFresh : Table where
  setflag := fun _ _ => false
  aterm := fun _ _ => 0
  bterm := fun _ _ => 0
  cterm := fun _ _ => 0
  cut := fun _ _ => 0
  lj1 := fun _ _ => 0
  lj2 := fun _ _ => 0
  lj3 := fun _ _ => 0
  lj4 := fun _ _ => 0
  lj5 := fun _ _ => 0
  lj6 := fun _ _ => 0
  offset := fun _ _ => 0

/-- Example table for C5: only the diagonal pairs `(i,i)` are explicitly
set (`a = 3, b = 4, c = 5`, cutoff 10); the cross pair `(1,2)` is left
to mixing. -/
def tableDiag : Table where
  setflag := fun a b => a == b
  aterm := fun _ _ => 3
  bterm := fun _ _ => 4
  cterm := fun _ _ => 5
  cut := fun _ _ => 10
  lj1 := fun _ _ => 0
  lj2 := fun _ _ => 0
  lj3 := fun _ _ => 0
  lj4 := fun _ _ => 0
  lj5 := fun _ _ => 0
  lj6 := fun _ _ => 0
  offset := fun _ _ => 0

/-- Counterexample to claim C5 as stated: serialize a finalized table
whose cross pair `(1,2)` is unset (its mixed cutoff is 10), deserialize
into a fresh table, and the restored cutoff of `(1,2)` is the fresh
table's value 0, not the original's 10 — the raw values of unset pairs
are not persisted, so they are not identical for every type pair. -/
theorem c5_counterexample :
    (read_restart (pairs 2) tableFresh
          (write_restart (pairs 2) (init_one_table mix_arith tableDiag 1 2))).map
        (fun q => q.1.cut 1 2) ≠
      some ((init_one_table mix_arith tableDiag 1 2).cut 1 2) := by
  have hread := read_restart_write [] (pairs 2) (init_one_table mix_arith tableDiag 1 2)
    tableFresh
  rw [List.append_nil] at hread
  rw [hread]
  have hmem : (1, 2) ∈ pairs 2 := (mem_pairs 2 1 2).mpr ⟨le_refl 1, by norm_num, le_refl 2⟩
  have hflag : (init_one_table mix_arith tableDiag 1 2).setflag 1 2 = false := by
    rw [init_one_table_setflag]; rfl
  obtain ⟨-, -, hcutU⟩ :=
    restore_foldl_mem (init_one_table mix_arith tableDiag 1 2) 1 2 (pairs 2) tableFresh hmem
  obtain ⟨-, -, -, hcut0⟩ := hcutU hflag
  have horig : (init_one_table mix_arith tableDiag 1 2).cut 1 2 = 10 := by
    rw [init_one_table_cut]
    norm_num [tableDiag, mix_arith]
  intro hcontra
  have h2 := Option.some.inj hcontra
  simp only [] at h2
  rw [hcut0, horig] at h2
  norm_num [tableFresh] at h2

/-- Claim C5 (amended): serializing the coefficient table and
deserializing into a fresh table `U` succeeds, consuming the whole
stream, and for every canonical type pair yields an identical `isSet`
flag; every explicitly set pair additionally gets identical
`a, b, c, cutoff` values (unset pairs are not persisted and retain the
fresh table's raw values); and after re-running finalization every
canonical pair has derived constants (`fC1..fC3`, `eC1..eC3`,
`energyOffset`, i.e. `lj1..lj6`, `offset`) identical to the original
table's. -/
theorem c5_restart_roundtrip (n : Nat) (T U : Table) (mix : ℚ → ℚ → ℚ) (i j : Nat)
    (hmem : (i, j) ∈ pairs n) :
    read_restart (pairs n) U (write_restart (pairs n) T) =
        some ((pairs n).foldl (restorePair T) U, []) ∧
      ((pairs n).foldl (restorePair T) U).setflag i j = T.setflag i j ∧
      (T.setflag i j = true →
        ((pairs n).foldl (restorePair T) U).aterm i j = T.aterm i j ∧
        ((pairs n).foldl (restorePair T) U).bterm i j = T.bterm i j ∧
        ((pairs n).foldl (restorePair T) U).cterm i j = T.cterm i j ∧
        ((pairs n).foldl (restorePair T) U).cut i j = T.cut i j) ∧
      (init_one_table mix ((pairs n).foldl (restorePair T) U) i j).lj1 i j =
        (init_one_table mix T i j).lj1 i j ∧
      (init_one_table mix ((pairs n).foldl (restorePair T) U) i j).lj2 i j =
        (init_one_table mix T i j).lj2 i j ∧
      (init_one_table mix ((pairs n).foldl (restorePair T) U) i j).lj3 i j =
        (init_one_table mix T i j).lj3 i j ∧
      (init_one_table mix ((pairs n).foldl (restorePair T) U) i j).lj4 i j =
        (init_one_table mix T i j).lj4 i j ∧
      (init_one_table mix ((pairs n).foldl (restorePair T) U) i j).lj5 i j =
        (init_one_table mix T i j).lj5 i j ∧
      (init_one_table mix ((pairs n).foldl (restorePair T) U) i j).lj6 i j =
        (init_one_table mix T i j).lj6 i j ∧
      (init_one_table mix ((pairs n).foldl (restorePair T) U) i j).offset i j =
        (init_one_table mix T i j).offset i j := by
  obtain ⟨hset, hvals, -⟩ := restore_foldl_mem T i j (pairs n) U hmem
  have hread := read_restart_write [] (pairs n) T U
  rw [List.append_nil] at hread
  have hab : ∀ V W : Table, V.setflag i j = W.setflag i j →
      (V.setflag i j = true → V.aterm i j = W.aterm i j) →
      (init_one_table mix V i j).aterm i j = (init_one_table mix W i j).aterm i j := by
    intro V W h1 h2
    rw [init_one_table_aterm, init_one_table_aterm, h1]
    by_cases hw : W.setflag i j = true
    · rw [if_pos hw, if_pos hw, h2 (h1.trans hw)]
    · rw [if_neg hw, if_neg hw]
  have hbb : ∀ V W : Table, V.setflag i j = W.setflag i j →
      (V.setflag i j = true → V.bterm i j = W.bterm i j) →
      (init_one_table mix V i j).bterm i j = (init_one_table mix W i j).bterm i j := by
    intro V W h1 h2
    rw [init_one_table_bterm, init_one_table_bterm, h1]
    by_cases hw : W.setflag i j = true
    · rw [if_pos hw, if_pos hw, h2 (h1.trans hw)]
    · rw [if_neg hw, if_neg hw]
  have hcb : ∀ V W : Table, V.setflag i j = W.setflag i j →
      (V.setflag i j = true → V.cterm i j = W.cterm i j) →
      (init_one_table mix V i j).cterm i j = (init_one_table mix W i j).cterm i j := by
    intro V W h1 h2
    rw [init_one_table_cterm, init_one_table_cterm, h1]
    by_cases hw : W.setflag i j = true
    · rw [if_pos hw, if_pos hw, h2 (h1.trans hw)]
    · rw [if_neg hw, if_neg hw]
  have ha := hab ((pairs n).foldl (restorePair T) U) T hset
    (fun hf => (hvals (hset.symm.trans hf)).1)
  have hb := hbb ((pairs n).foldl (restorePair T) U) T hset
    (fun hf => (hvals (hset.symm.trans hf)).2.1)
  have hc := hcb ((pairs n).foldl (restorePair T) U) T hset
    (fun hf => (hvals (hset.symm.trans hf)).2.2.1)
  refine ⟨hread, hset, hvals, ?_, ?_, ?_, ?_, ?_, ?_, ?_⟩
  · rw [init_one_table_lj1, init_one_table_lj1, ha]
  · rw [init_one_table_lj2, init_one_table_lj2, hb]
  · rw [init_one_table_lj3, init_one_table_lj3, hc]
  · rw [init_one_table_lj4, init_one_table_lj4, ha]
  · rw [init_one_table_lj5, init_one_table_lj5, hb]
  · rw [init_one_table_lj6, init_one_table_lj6, hc]
  · rw [init_one_table_offset, init_one_table_offset]

theorem c5_restart_roundtrip_witness :
    (1, 2) ∈ pairs 2 ∧
      (read_restart (pairs 2) tableFresh (write_restart (pairs 2) tableC1) =
          some ((pairs 2).foldl (restorePair tableC1) tableFresh, []) ∧
        ((pairs 2).foldl (restorePair tableC1) tableFresh).setflag 1 2 =
          tableC1.setflag 1 2 ∧
        (tableC1.setflag 1 2 = true →
          ((pairs 2).foldl (restorePair tableC1) tableFresh).aterm 1 2 =
            tableC1.aterm 1 2 ∧
          ((pairs 2).foldl (restorePair tableC1) tableFresh).bterm 1 2 =
            tableC1.bterm 1 2 ∧
          ((pairs 2).foldl (restorePair tableC1) tableFresh).cterm 1 2 =
            tableC1.cterm 1 2 ∧
          ((pairs 2).foldl (restorePair tableC1) tableFresh).cut 1 2 =
            tableC1.cut 1 2) ∧
        (init_one_table mix_arith ((pairs 2).foldl (restorePair tableC1) tableFresh) 1 2).lj1
            1 2 = (init_one_table mix_arith tableC1 1 2).lj1 1 2 ∧
        (init_one_table mix_arith ((pairs 2).foldl (restorePair tableC1) tableFresh) 1 2).lj2
            1 2 = (init_one_table mix_arith tableC1 1 2).lj2 1 2 ∧
        (init_one_table mix_arith ((pairs 2).foldl (restorePair tableC1) tableFresh) 1 2).lj3
            1 2 = (init_one_table mix_arith tableC1 1 2).lj3 1 2 ∧
        (init_one_table mix_arith ((pairs 2).foldl (restorePair tableC1) tableFresh) 1 2).lj4
            1 2 = (init_one_table mix_arith tableC1 1 2).lj4 1 2 ∧
        (init_one_table mix_arith ((pairs 2).foldl (restorePair tableC1) tableFresh) 1 2).lj5
            1 2 = (init_one_table mix_arith tableC1 1 2).lj5 1 2 ∧
        (init_one_table mix_arith ((pairs 2).foldl (restorePair tableC1) tableFresh) 1 2).lj6
            1 2 = (init_one_table mix_arith tableC1 1 2).lj6 1 2 ∧
        (init_one_table mix_arith ((pairs 2).foldl (restorePair tableC1) tableFresh) 1 2).offset
            1 2 = (init_one_table mix_arith tableC1 1 2).offset 1 2) :=
  ⟨(mem_pairs 2 1 2).mpr ⟨le_refl 1, by norm_num, le_refl 2⟩,
    c5_restart_roundtrip 2 tableC1 tableFresh mix_arith 1 2
      ((mem_pairs 2 1 2).mpr ⟨le_refl 1, by norm_num, le_refl 2⟩)⟩

end PairLJETEN
